import Mathlib

/-!
Verification development for the Music Industry Simulator core
(tick-driven idle game: state model, per-tick subsystem updates,
prestige, platforms, validation).

The TypeScript source is shallowly embedded: JS numbers are modelled as
rationals (`ℚ`), counters that every live code path keeps integral
(`songsInQueue`, `totalCompletedSongs`, prestige count, ...) as `ℕ`,
mutation as explicit state passing, and ambient clock reads
(`Date.now()`, `performance.now()`) as explicit `now` parameters.
Functions that mutate state and return a success flag are modelled as
`GameState → ... → Bool × GameState`.
-/

namespace MusicSim

/-- Boost type tag, source `ActiveBoost.type : 'income' | 'fans' | 'speed'`. -/
inductive BoostType where
  | income
  | fans
  | speed
deriving DecidableEq, Repr

/-- Current artist, source interface `Artist` in types.ts. -/
structure Artist where
  name : String
  totalSongs : ℚ
  fans : ℚ
  peakFans : ℚ
deriving DecidableEq, Repr

/-- Frozen snapshot of a prestiged artist, source interface `LegacyArtist`. -/
structure LegacyArtist where
  name : String
  totalSongs : ℚ
  fans : ℚ
  incomeMultiplier : ℚ
  createdAt : ℚ
deriving DecidableEq, Repr

/-- Temporary boost, source interface `ActiveBoost`. -/
structure ActiveBoost where
  abilityId : String
  name : String
  multiplier : ℚ
  expiresAt : ℚ
  type : BoostType
deriving DecidableEq, Repr

/-- Physical album batch, source interface `PhysicalAlbum`. -/
structure PhysicalAlbum where
  id : String
  name : String
  releaseTime : ℚ
  copiesPressed : ℚ
  copiesRemaining : ℚ
  pricePerCopy : ℚ
  revenueGenerated : ℚ
  pressTimestamp : ℚ
deriving DecidableEq, Repr

/-- Active tour, source interface `Tour`. -/
structure Tour where
  id : String
  name : String
  tier : ℕ
  startTime : ℚ
  endTime : ℚ
  durationSeconds : ℚ
  revenueMultiplier : ℚ
  cost : ℚ
deriving DecidableEq, Repr

/-- Feature unlock flags, source interface `UnlockedSystems`. -/
structure UnlockedSystems where
  prestige : Bool
  gpu : Bool
  physicalAlbums : Bool
  tours : Bool
  platformOwnership : Bool
  trendResearch : Bool
deriving DecidableEq, Repr

/-- The single mutable game state, source interface `GameState` in types.ts.
`songsInQueue` is declared `QueuedSong[]` in types.ts but every live system
(songs, validation, UI) reads and writes it as a numeric count; it is
modelled as that count. -/
structure GameState where
  version : String
  money : ℚ
  gpu : ℚ
  currentArtist : Artist
  legacyArtists : List LegacyArtist
  totalPrestiges : ℕ
  totalCompletedSongs : ℕ
  songsInQueue : ℕ
  currentSongProgress : ℚ
  currentTechTier : ℕ
  purchasedUpgrades : List String
  activeBoosts : List ActiveBoost
  activeAlbumBatch : Option PhysicalAlbum
  lastAlbumTimestamp : ℚ
  totalAlbumsReleased : ℕ
  activeTour : Option Tour
  lastTourEndTime : ℚ
  tourCooldownSeconds : ℚ
  totalToursCompleted : ℕ
  ownedPlatforms : List String
  industryControl : ℚ
  unlockedSystems : UnlockedSystems
  trendingGenre : String
  experienceMultiplier : ℚ
  lastSaveTime : ℚ
  totalTimePlayed : ℚ
  gameStartTime : ℚ
deriving DecidableEq, Repr

/-- One tech tier's static data, source objects `TECH_TIER_1` .. `TECH_TIER_7`
in config.ts. -/
structure TechTierDef where
  tier : ℕ
  name : String
  baseCost : ℚ
  songCost : ℚ
  generationTime : ℚ
  incomeMultiplier : ℚ
  fanMultiplier : ℚ
  unlockPrestige : Bool
  unlockGPU : Bool
deriving DecidableEq, Repr

/-- Source `TECH_TIER_1` (Third-party Web Services). -/
def TECH_TIER_1 : TechTierDef :=
  { tier := 1, name := "Third-party Web Services", baseCost := 0, songCost := 1
    generationTime := 30, incomeMultiplier := 1, fanMultiplier := 1
    unlockPrestige := false, unlockGPU := false }

/-- Source `TECH_TIER_2` (Lifetime Licenses). -/
def TECH_TIER_2 : TechTierDef :=
  { tier := 2, name := "Lifetime Licenses", baseCost := 500, songCost := 0
    generationTime := 15, incomeMultiplier := 1.5, fanMultiplier := 1.2
    unlockPrestige := false, unlockGPU := false }

/-- Source `TECH_TIER_3` (Local AI Models). -/
def TECH_TIER_3 : TechTierDef :=
  { tier := 3, name := "Local AI Models", baseCost := 5000, songCost := 0
    generationTime := 5, incomeMultiplier := 2.5, fanMultiplier := 1.5
    unlockPrestige := true, unlockGPU := true }

/-- Source `TECH_TIER_4` (Fine-tuned Models). -/
def TECH_TIER_4 : TechTierDef :=
  { tier := 4, name := "Fine-tuned Models", baseCost := 50000, songCost := 0
    generationTime := 2, incomeMultiplier := 4, fanMultiplier := 2
    unlockPrestige := false, unlockGPU := false }

/-- Source `TECH_TIER_5` (Train Your Own Models). -/
def TECH_TIER_5 : TechTierDef :=
  { tier := 5, name := "Train Your Own Models", baseCost := 500000, songCost := 0
    generationTime := 1, incomeMultiplier := 7, fanMultiplier := 3
    unlockPrestige := true, unlockGPU := false }

/-- Source `TECH_TIER_6` (Build Your Own Software). -/
def TECH_TIER_6 : TechTierDef :=
  { tier := 6, name := "Build Your Own Software", baseCost := 5000000, songCost := 0
    generationTime := 0.5, incomeMultiplier := 12, fanMultiplier := 4
    unlockPrestige := true, unlockGPU := false }

/-- Source `TECH_TIER_7` (AI Agent Automation). -/
def TECH_TIER_7 : TechTierDef :=
  { tier := 7, name := "AI Agent Automation", baseCost := 50000000, songCost := 0
    generationTime := 0.1, incomeMultiplier := 20, fanMultiplier := 6
    unlockPrestige := true, unlockGPU := false }

/-- Source `TECH_TIERS` array in config.ts. -/
def TECH_TIERS : List TechTierDef :=
  [TECH_TIER_1, TECH_TIER_2, TECH_TIER_3, TECH_TIER_4, TECH_TIER_5, TECH_TIER_6, TECH_TIER_7]

/-- Source `getTechTier` in config.ts: looks the tier up in `TECH_TIERS` and
falls back to `TECH_TIER_1` when absent. -/
def getTechTier (tier : ℕ) : TechTierDef :=
  ((TECH_TIERS.find? (fun t => t.tier == tier)).getD TECH_TIER_1)

/-- Source base streaming rate, `BALANCE_CONFIG.streaming.baseRate`.
The balance JSON itself is not in the repository; the value 0.001 is the
one recorded in config.ts's inline comment and pinned by income.test.ts. -/
def BASE_STREAMING_RATE : ℚ := 0.001

/-- Source default platform multiplier,
`BALANCE_CONFIG.streaming.platformMultiplierDefault` (1.0 per the config
comment and income tests). -/
def PLATFORM_MULTIPLIER_DEFAULT : ℚ := 1

-- ===========================================================================
-- Song generation system (source: systems/songs.ts)
-- ===========================================================================

/-- Source `calculateSongCost`: per-song cost of the current tech tier times
the count. -/
def calculateSongCost (state : GameState) (count : ℕ) : ℚ :=
  (getTechTier state.currentTechTier).songCost * count

/-- Source `queueSongs`: fails without mutation when money is below the cost,
otherwise deducts the cost and adds `count` to the queue. -/
def queueSongs (state : GameState) (count : ℕ) : Bool × GameState :=
  let cost := calculateSongCost state count
  if state.money < cost then
    (false, state)
  else
    (true, { state with money := state.money - cost,
                        songsInQueue := state.songsInQueue + count })

/-- Source while-loop inside `processSongQueue`: while progress ≥ 1 and the
queue is non-empty, complete one song (count one completion, decrement the
queue, subtract 1 from progress) and force progress to 0 when the queue
drains. Returns (remaining queue, remaining progress, completions). -/
def songCompletionLoop : ℕ → ℚ → ℕ → ℕ × ℚ × ℕ
  | 0, progress, completed => (0, progress, completed)
  | q + 1, progress, completed =>
    if 1 ≤ progress then
      songCompletionLoop q (if q = 0 then 0 else progress - 1) (completed + 1)
    else
      (q + 1, progress, completed)

/-- Source `processSongQueue`: no-op on an empty queue; otherwise adds
`deltaTime / generationTime` of progress (or a full song when the
generation time is not positive) and runs the completion loop. -/
def processSongQueue (state : GameState) (deltaTime : ℚ) : GameState :=
  if state.songsInQueue = 0 then state
  else
    let techTier := getTechTier state.currentTechTier
    let generationTime := techTier.generationTime
    let progressIncrement := if 0 < generationTime then 1 / generationTime * deltaTime else 1
    let r := songCompletionLoop state.songsInQueue
      (state.currentSongProgress + progressIncrement) 0
    { state with songsInQueue := r.1,
                 currentSongProgress := r.2.1,
                 totalCompletedSongs := state.totalCompletedSongs + r.2.2 }

-- ===========================================================================
-- Income system (source: systems/income.ts)
-- ===========================================================================

/-- Source `calculatePlatformMultiplier` in income.ts: 1.5 when the id
`streaming_platform` is in `ownedPlatforms`, else the default 1.0. -/
def calculatePlatformMultiplier (state : GameState) : ℚ :=
  if "streaming_platform" ∈ state.ownedPlatforms then 1.5
  else PLATFORM_MULTIPLIER_DEFAULT

/-- Source `calculateStreamingIncome`: songs × fans × base rate, then the
platform, tech-tier income and experience multipliers. -/
def calculateStreamingIncome (state : GameState) : ℚ :=
  let techTier := getTechTier state.currentTechTier
  let baseStreaming :=
    (state.totalCompletedSongs : ℚ) * state.currentArtist.fans * BASE_STREAMING_RATE
  baseStreaming * calculatePlatformMultiplier state * techTier.incomeMultiplier
    * state.experienceMultiplier

/-- Source `applyTourMultiplier`: multiplies by the active tour's revenue
multiplier while `now < endTime`, else leaves the income unchanged.
The source's `Date.now()` read is the explicit `now` parameter. -/
def applyTourMultiplier (now : ℚ) (state : GameState) (baseIncome : ℚ) : ℚ :=
  match state.activeTour with
  | none => baseIncome
  | some tour => if now < tour.endTime then baseIncome * tour.revenueMultiplier else baseIncome

/-- Source `applyIncomeBoosts`: multiplies in every active boost of type
`income` whose `expiresAt` is still in the future. -/
def applyIncomeBoosts (now : ℚ) (state : GameState) (baseIncome : ℚ) : ℚ :=
  state.activeBoosts.foldl
    (fun inc boost =>
      if boost.type = BoostType.income ∧ now < boost.expiresAt then inc * boost.multiplier
      else inc)
    baseIncome

/-- Source `calculateTotalIncome`: streaming income (albums and platforms are
TODO comments in the source), then the tour multiplier, then income boosts. -/
def calculateTotalIncome (now : ℚ) (state : GameState) : ℚ :=
  applyIncomeBoosts now state (applyTourMultiplier now state (calculateStreamingIncome state))

/-- Source `generateIncome`: integrates the per-second income over
`deltaTime` into the money balance. -/
def generateIncome (now : ℚ) (state : GameState) (deltaTime : ℚ) : GameState :=
  { state with money := state.money + calculateTotalIncome now state * deltaTime }

-- ===========================================================================
-- Fan system (source: systems/fans.ts)
-- ===========================================================================

/-- Source module-level constant `BASE_FAN_RATE` in systems/fans.ts
(0.01 fans per song per second). -/
def BASE_FAN_RATE : ℚ := 0.01

/-- Source `applyFanBoosts` in systems/fans.ts: multiplies in every active
boost of type `fans` whose `expiresAt` is still in the future; the
source's internal `Date.now()` read is the explicit `now` parameter. -/
def applyFanBoosts (now : ℚ) (state : GameState) (baseFans : ℚ) : ℚ :=
  state.activeBoosts.foldl
    (fun f boost =>
      if boost.type = BoostType.fans ∧ now < boost.expiresAt then f * boost.multiplier
      else f)
    baseFans

/-- Source `calculateFanGeneration` in systems/fans.ts: 0 when there are no
completed songs; otherwise songs × BASE_FAN_RATE × tech-tier fan
multiplier × experience multiplier, with the active fan-boost multipliers
folded in via `applyFanBoosts` (which reads the clock, hence the `now`
parameter). -/
def calculateFanGeneration (now : ℚ) (state : GameState) : ℚ :=
  if state.totalCompletedSongs = 0 then 0
  else
    let techTier := getTechTier state.currentTechTier
    let baseFans := (state.totalCompletedSongs : ℚ) * BASE_FAN_RATE
    let fansPerSecond := baseFans * techTier.fanMultiplier * state.experienceMultiplier
    applyFanBoosts now state fansPerSecond

/-- Source `updatePeakFans` in systems/fans.ts: raises `peakFans` to the
current fan count when it exceeds the previous peak. -/
def updatePeakFans (state : GameState) : GameState :=
  if state.currentArtist.peakFans < state.currentArtist.fans then
    { state with currentArtist :=
        { state.currentArtist with peakFans := state.currentArtist.fans } }
  else state

/-- Source `generateFans` in systems/fans.ts: integrates
`calculateFanGeneration` over `deltaTime` into `fans`, then updates the
peak. Legacy cross-promotion is not applied here:
`calculateLegacyFanContribution` is exported by fans.ts but never invoked
by the live code. -/
def generateFans (now : ℚ) (state : GameState) (deltaTime : ℚ) : GameState :=
  let fansPerSecond := calculateFanGeneration now state
  let fansThisTick := fansPerSecond * deltaTime
  updatePeakFans
    { state with currentArtist :=
        { state.currentArtist with fans := state.currentArtist.fans + fansThisTick } }

/-- Source constant `CROSS_PROMOTION_RATE`, local to
`calculateLegacyFanContribution` in systems/fans.ts (0.1% of legacy fans
per second). -/
def CROSS_PROMOTION_RATE : ℚ := 0.001

/-- Source `calculateLegacyFanContribution` in systems/fans.ts: each legacy
artist contributes `fans × CROSS_PROMOTION_RATE` per second. The function
exists in the source but no live code path calls it. -/
def calculateLegacyFanContribution (state : GameState) : ℚ :=
  (state.legacyArtists.map (fun l => l.fans * CROSS_PROMOTION_RATE)).sum

-- ===========================================================================
-- Prestige system (source: systems/prestige.ts)
-- ===========================================================================

/-- Source constant `MAX_LEGACY_ARTISTS`. -/
def MAX_LEGACY_ARTISTS : ℕ := 3

/-- Source constant `LEGACY_INCOME_MULTIPLIER`. -/
def LEGACY_INCOME_MULTIPLIER : ℚ := 0.8

/-- Source constant `EXPERIENCE_MULTIPLIER_PER_PRESTIGE`. -/
def EXPERIENCE_MULTIPLIER_PER_PRESTIGE : ℚ := 0.1

/-- Source `canPrestige`: true iff the prestige unlock flag is set (the
minimum-progress check is commented out in the source). -/
def canPrestige (state : GameState) : Bool :=
  state.unlockedSystems.prestige

/-- Source `performPrestige`: on failure returns false without mutation; on
success snapshots the current artist as a legacy artist (evicting the
oldest past `MAX_LEGACY_ARTISTS`), bumps the prestige counter and
experience multiplier, replaces the artist, zeroes money, songs, the queue
and progress, and clears boosts, the album batch and the tour. The
source's `generateArtistName()` and `Date.now()` calls are the explicit
`newName` and `now` parameters. -/
def performPrestige (newName : String) (now : ℚ) (state : GameState) : Bool × GameState :=
  if !canPrestige state then
    (false, state)
  else
    let legacyArtist : LegacyArtist :=
      { name := state.currentArtist.name
        totalSongs := state.currentArtist.totalSongs
        fans := state.currentArtist.fans
        incomeMultiplier := LEGACY_INCOME_MULTIPLIER
        createdAt := now }
    let pushed := state.legacyArtists ++ [legacyArtist]
    let legacyArtists := if MAX_LEGACY_ARTISTS < pushed.length then pushed.drop 1 else pushed
    let totalPrestiges := state.totalPrestiges + 1
    (true,
      { state with
          legacyArtists := legacyArtists
          totalPrestiges := totalPrestiges
          experienceMultiplier := 1 + (totalPrestiges : ℚ) * EXPERIENCE_MULTIPLIER_PER_PRESTIGE
          currentArtist := { name := newName, totalSongs := 0, fans := 0, peakFans := 0 }
          money := 0
          totalCompletedSongs := 0
          songsInQueue := 0
          currentSongProgress := 0
          activeBoosts := []
          activeAlbumBatch := none
          activeTour := none })

/-- Source `calculateLegacyIncome`: each legacy artist contributes
`(totalSongs × fans / 100) × incomeMultiplier` per second. -/
def calculateLegacyIncome (state : GameState) : ℚ :=
  (state.legacyArtists.map (fun l => l.totalSongs * l.fans / 100 * l.incomeMultiplier)).sum

/-- Source `applyLegacyIncome`: adds the legacy income integrated over
`deltaTime` to money when it is positive. -/
def applyLegacyIncome (state : GameState) (deltaTime : ℚ) : GameState :=
  let legacyIncome := calculateLegacyIncome state
  if 0 < legacyIncome then
    { state with money := state.money + legacyIncome * deltaTime }
  else state

-- ===========================================================================
-- Platform ownership and industry control (source: systems/platforms.ts and
-- data/platforms.ts)
-- ===========================================================================

/-- One platform's static data, source interface `Platform` in types.ts
(the display-only `owned` flag of the static definitions is constant
`false` in data/platforms.ts and never consulted by the systems). -/
structure PlatformDef where
  id : String
  name : String
  cost : ℚ
  incomeMultiplier : ℚ
  controlContribution : ℚ
deriving DecidableEq, Repr

/-- Source `ALL_PLATFORMS` in data/platforms.ts: the six purchasable
platforms. -/
def ALL_PLATFORMS : List PlatformDef :=
  [ { id := "platform_spotify", name := "Spotify Clone", cost := 100000
      incomeMultiplier := 1.2, controlContribution := 10 },
    { id := "platform_label", name := "Record Label", cost := 500000
      incomeMultiplier := 1.3, controlContribution := 15 },
    { id := "platform_distributor", name := "Distribution Network", cost := 2000000
      incomeMultiplier := 1.4, controlContribution := 15 },
    { id := "platform_radio", name := "Radio Conglomerate", cost := 10000000
      incomeMultiplier := 1.5, controlContribution := 20 },
    { id := "platform_venues", name := "Venue Chain", cost := 50000000
      incomeMultiplier := 1.6, controlContribution := 20 },
    { id := "platform_media", name := "Media Empire", cost := 250000000
      incomeMultiplier := 2.0, controlContribution := 20 } ]

/-- Source `getPlatformById` in data/platforms.ts. -/
def getPlatformById (id : String) : Option PlatformDef :=
  ALL_PLATFORMS.find? (fun p => p.id == id)

/-- Source `canPurchasePlatform`: the platform must exist, not be owned yet,
and be affordable. -/
def canPurchasePlatform (state : GameState) (platformId : String) : Bool :=
  match getPlatformById platformId with
  | none => false
  | some platform =>
    if platformId ∈ state.ownedPlatforms then false
    else decide (platform.cost ≤ state.money)

/-- Source `purchasePlatform`: on success deducts the cost, appends the id to
`ownedPlatforms` and adds the platform's `controlContribution` to
`industryControl`. -/
def purchasePlatform (state : GameState) (platformId : String) : Bool × GameState :=
  if !canPurchasePlatform state platformId then
    (false, state)
  else
    match getPlatformById platformId with
    | none => (false, state)
    | some platform =>
      (true,
        { state with
            money := state.money - platform.cost
            ownedPlatforms := state.ownedPlatforms ++ [platformId]
            industryControl := state.industryControl + platform.controlContribution })

/-- Source `getPlatformIncomeMultiplier` in systems/platforms.ts: product of
the `incomeMultiplier` of every owned platform. -/
def getPlatformIncomeMultiplier (state : GameState) : ℚ :=
  state.ownedPlatforms.foldl
    (fun m platformId =>
      match getPlatformById platformId with
      | some platform => m * platform.incomeMultiplier
      | none => m)
    1

/-- Source `hasWon`: industry control has reached 100. -/
def hasWon (state : GameState) : Bool :=
  decide (100 ≤ state.industryControl)

-- ===========================================================================
-- Tech upgrade system (source: systems/tech.ts and data/tech-upgrades.ts)
-- ===========================================================================

/-- The optional `effects` bag of an upgrade, source `TechUpgrade.effects`
in types.ts; absent optional fields are modelled as `none` / `false`. -/
structure TechUpgradeEffects where
  generationSpeedMultiplier : Option ℚ
  incomeMultiplier : Option ℚ
  fanMultiplier : Option ℚ
  unlockPrestige : Bool
  unlockGPU : Bool
deriving DecidableEq, Repr

/-- One upgrade's static data, source interface `TechUpgrade` (the static
`purchased` seed flag is display-only; live membership is tracked in
`GameState.purchasedUpgrades`). -/
structure TechUpgradeDef where
  id : String
  cost : ℚ
  tier : ℕ
  subTier : ℕ
  effects : TechUpgradeEffects
deriving DecidableEq, Repr

/-- Helper to write the 21 upgrade rows of data/tech-upgrades.ts compactly. -/
def mkUpgrade (tier subTier : ℕ) (cost : ℚ) (speed income fanM : Option ℚ)
    (uPrestige uGPU : Bool) : TechUpgradeDef :=
  { id := "tech_" ++ toString tier ++ "_" ++ toString subTier
    cost := cost, tier := tier, subTier := subTier
    effects := { generationSpeedMultiplier := speed, incomeMultiplier := income
                 fanMultiplier := fanM, unlockPrestige := uPrestige, unlockGPU := uGPU } }

/-- Source `ALL_TECH_UPGRADES` in data/tech-upgrades.ts: 7 tiers × 3
sub-tiers with their costs and unlock effects. -/
def ALL_TECH_UPGRADES : List TechUpgradeDef :=
  [ mkUpgrade 1 1 0 (some 1) (some 1) (some 1) false false,
    mkUpgrade 1 2 50 (some 1.2) (some 1.1) (some 1) false false,
    mkUpgrade 1 3 150 (some 1.5) (some 1.3) (some 1.1) false false,
    mkUpgrade 2 1 500 (some 2) (some 1.5) (some 1.2) false false,
    mkUpgrade 2 2 1000 (some 2.3) (some 1.8) (some 1.4) false false,
    mkUpgrade 2 3 2500 (some 3) (some 2) (some 1.5) false false,
    mkUpgrade 3 1 5000 (some 6) (some 2.5) (some 1.5) true true,
    mkUpgrade 3 2 10000 (some 10) (some 3) (some 1.8) false false,
    mkUpgrade 3 3 25000 (some 15) (some 3.5) (some 2) false false,
    mkUpgrade 4 1 50000 (some 15) (some 4) (some 2) false false,
    mkUpgrade 4 2 100000 (some 20) (some 5) (some 2.5) false false,
    mkUpgrade 4 3 250000 (some 30) (some 6) (some 3) false false,
    mkUpgrade 5 1 500000 (some 30) (some 7) (some 3) true false,
    mkUpgrade 5 2 1000000 (some 37.5) (some 8.5) (some 3.5) false false,
    mkUpgrade 5 3 2500000 (some 60) (some 10) (some 4) false false,
    mkUpgrade 6 1 5000000 (some 60) (some 12) (some 4) true false,
    mkUpgrade 6 2 10000000 (some 100) (some 15) (some 5) false false,
    mkUpgrade 6 3 25000000 (some 150) (some 18) (some 6) false false,
    mkUpgrade 7 1 50000000 (some 300) (some 20) (some 6) true false,
    mkUpgrade 7 2 100000000 (some 500) (some 25) (some 7) false false,
    mkUpgrade 7 3 250000000 (some 1000) (some 30) (some 10) false false ]

/-- Source `getUpgradeById` in data/tech-upgrades.ts. -/
def getUpgradeById (id : String) : Option TechUpgradeDef :=
  ALL_TECH_UPGRADES.find? (fun u => u.id == id)

/-- Source `canPurchaseUpgrade` in data/tech-upgrades.ts: not already
purchased, and either sub-tier 1 or the preceding sub-tier of the same
tier already purchased. -/
def canPurchaseUpgrade (upgrade : TechUpgradeDef) (purchasedIds : List String) : Bool :=
  if upgrade.id ∈ purchasedIds then false
  else if upgrade.subTier = 1 then true
  else
    let previousId := "tech_" ++ toString upgrade.tier ++ "_" ++ toString (upgrade.subTier - 1)
    previousId ∈ purchasedIds

/-- Source `canAffordUpgrade` in systems/tech.ts. -/
def canAffordUpgrade (state : GameState) (upgradeId : String) : Bool :=
  match getUpgradeById upgradeId with
  | none => false
  | some upgrade => decide (upgrade.cost ≤ state.money)

/-- Source `applyTechEffects`: flips the prestige and GPU unlock flags when
the upgrade's effects request them (the numeric effect multipliers are
handled by the tier table, not here). -/
def applyTechEffects (state : GameState) (upgrade : TechUpgradeDef) : GameState :=
  let s :=
    if upgrade.effects.unlockPrestige then
      { state with unlockedSystems := { state.unlockedSystems with prestige := true } }
    else state
  if upgrade.effects.unlockGPU then
    { s with unlockedSystems := { s.unlockedSystems with gpu := true } }
  else s

/-- Source `purchaseTechUpgrade`: validates existence, affordability,
prerequisites and non-membership, then deducts the cost, records the
purchase, applies unlock effects, and raises `currentTechTier` when moving
to a higher tier. -/
def purchaseTechUpgrade (state : GameState) (upgradeId : String) : Bool × GameState :=
  match getUpgradeById upgradeId with
  | none => (false, state)
  | some upgrade =>
    if !canAffordUpgrade state upgradeId then (false, state)
    else if !canPurchaseUpgrade upgrade state.purchasedUpgrades then (false, state)
    else if upgradeId ∈ state.purchasedUpgrades then (false, state)
    else
      let s := { state with money := state.money - upgrade.cost
                            purchasedUpgrades := state.purchasedUpgrades ++ [upgradeId] }
      let s := applyTechEffects s upgrade
      (true,
        if state.currentTechTier < upgrade.tier then
          { s with currentTechTier := upgrade.tier }
        else s)

-- ===========================================================================
-- Tours (source: systems/tours.ts)
-- ===========================================================================

/-- One tour tier's static data, source interface `TourTierDefinition`. -/
structure TourTierDef where
  tier : ℕ
  name : String
  cost : ℚ
  durationSeconds : ℚ
  revenueMultiplier : ℚ
  cooldownSeconds : ℚ
deriving DecidableEq, Repr

/-- Source `TOUR_TIERS` in systems/tours.ts. -/
def TOUR_TIERS : List TourTierDef :=
  [ { tier := 1, name := "Local Club Tour", cost := 500, durationSeconds := 30
      revenueMultiplier := 1.5, cooldownSeconds := 60 },
    { tier := 2, name := "Regional Tour", cost := 2500, durationSeconds := 60
      revenueMultiplier := 2.0, cooldownSeconds := 90 },
    { tier := 3, name := "National Tour", cost := 10000, durationSeconds := 120
      revenueMultiplier := 3.0, cooldownSeconds := 120 },
    { tier := 4, name := "International Tour", cost := 50000, durationSeconds := 180
      revenueMultiplier := 5.0, cooldownSeconds := 180 },
    { tier := 5, name := "World Tour", cost := 250000, durationSeconds := 300
      revenueMultiplier := 10.0, cooldownSeconds := 300 } ]

/-- Source `getTourTier`. -/
def getTourTier (tier : ℕ) : Option TourTierDef :=
  TOUR_TIERS.find? (fun t => t.tier == tier)

/-- Source `isTourOnCooldown`: no cooldown when `lastTourEndTime` is 0
(falsy in the source); otherwise on cooldown while the seconds since the
last tour end are below `tourCooldownSeconds`. -/
def isTourOnCooldown (now : ℚ) (state : GameState) : Bool :=
  if state.lastTourEndTime = 0 then false
  else decide ((now - state.lastTourEndTime) / 1000 < state.tourCooldownSeconds)

/-- Source `canStartTour`: tours unlocked, no active tour, not on cooldown,
the tier exists, and the cost is affordable. -/
def canStartTour (now : ℚ) (state : GameState) (tier : ℕ) : Bool :=
  if !state.unlockedSystems.tours then false
  else if state.activeTour.isSome then false
  else if isTourOnCooldown now state then false
  else
    match getTourTier tier with
    | none => false
    | some tourTier => decide (tourTier.cost ≤ state.money)

/-- Source `startTour`: deducts the cost and installs a tour running from
`now` for the tier's duration. The source's `uuidv4()` and
`generateTourName()` calls are the explicit `tourId` and `tourName`
parameters. -/
def startTour (now : ℚ) (tourId tourName : String) (state : GameState) (tier : ℕ) :
    Bool × GameState :=
  if !canStartTour now state tier then (false, state)
  else
    match getTourTier tier with
    | none => (false, state)
    | some tourTier =>
      (true,
        { state with
            money := state.money - tourTier.cost
            activeTour := some
              { id := tourId, name := tourName, tier := tier, startTime := now
                endTime := now + tourTier.durationSeconds * 1000
                durationSeconds := tourTier.durationSeconds
                revenueMultiplier := tourTier.revenueMultiplier
                cost := tourTier.cost } })

/-- Source `processTour`: once `now` reaches the active tour's `endTime`,
records the cooldown from the tier table, stamps `lastTourEndTime`, clears
the tour and counts it as completed. -/
def processTour (now : ℚ) (state : GameState) : GameState :=
  match state.activeTour with
  | none => state
  | some tour =>
    if tour.endTime ≤ now then
      let cooldown := match getTourTier tour.tier with
        | some tourTier => tourTier.cooldownSeconds
        | none => state.tourCooldownSeconds
      { state with
          tourCooldownSeconds := cooldown
          lastTourEndTime := now
          activeTour := none
          totalToursCompleted := state.totalToursCompleted + 1 }
    else state

-- ===========================================================================
-- Physical albums (source: the physical-albums system module)
-- ===========================================================================

/-- Source constant `BASE_PRESS_COST` ($5 per copy). -/
def BASE_PRESS_COST : ℚ := 5

/-- Source constant `BASE_SELL_RATE` (copies per second). -/
def BASE_SELL_RATE : ℚ := 0.5

/-- Source `calculatePressCost`. -/
def calculatePressCost (copies : ℚ) : ℚ :=
  copies * BASE_PRESS_COST

/-- Source `canPressAlbum`: physical albums unlocked and the press cost
affordable. -/
def canPressAlbum (state : GameState) (copies : ℚ) : Bool :=
  if !state.unlockedSystems.physicalAlbums then false
  else decide (calculatePressCost copies ≤ state.money)

/-- Source `pressAlbum`: deducts the press cost and replaces any active
batch with a fresh one pressed at `now`. The source's `uuidv4()` and
`generateAlbumName()` calls are the explicit `albumId` and `albumName`
parameters. -/
def pressAlbum (now : ℚ) (albumId albumName : String) (state : GameState)
    (copies pricePerCopy : ℚ) : Bool × GameState :=
  if !canPressAlbum state copies then (false, state)
  else
    (true,
      { state with
          money := state.money - calculatePressCost copies
          activeAlbumBatch := some
            { id := albumId, name := albumName, releaseTime := now
              copiesPressed := copies, copiesRemaining := copies
              pricePerCopy := pricePerCopy, revenueGenerated := 0
              pressTimestamp := now }
          lastAlbumTimestamp := now
          totalAlbumsReleased := state.totalAlbumsReleased + 1 })

/-- Source `processAlbumSales`. The source computes
`demand = clamp01(exp(-DEMAND_DECAY_RATE * ageSeconds))` and
`fanMult = 1 + log10(max(1, fans)) * 0.1` with floating-point `exp` and
`log10`; those two real-valued factors enter only as multiplicative
inputs to the sell rate and are taken here as the explicit `demand` and
`fanMult` parameters. The rest follows the source: clear a sold-out
batch, sell `min(copiesRemaining, sellRate × deltaTime)` copies, credit
the revenue, and clear the batch when it sells out. -/
def processAlbumSales (demand fanMult : ℚ) (state : GameState) (deltaTime : ℚ) : GameState :=
  match state.activeAlbumBatch with
  | none => state
  | some album =>
    if album.copiesRemaining ≤ 0 then
      { state with activeAlbumBatch := none }
    else
      let sellRate := BASE_SELL_RATE * demand * fanMult
      let copiesSold := min album.copiesRemaining (sellRate * deltaTime)
      let revenue := copiesSold * album.pricePerCopy
      let album' := { album with copiesRemaining := album.copiesRemaining - copiesSold
                                 revenueGenerated := album.revenueGenerated + revenue }
      { state with
          money := state.money + revenue
          activeAlbumBatch := if album'.copiesRemaining ≤ 0 then none else some album' }

-- ===========================================================================
-- Exploitation boosts.  The activation module is not in the repository
-- (part of the implementation plan only), so activation is modelled from
-- the spec; expiry filtering is the live code in the page's game loop.
-- ===========================================================================

/-- Modelled from the spec (section 4.9): the boost-activation module is
missing from the repository. Activation appends an `ActiveBoost` with
`expiresAt = now + duration × 1000`; no uniqueness constraint. -/
def activateBoost (now : ℚ) (abilityId abilityName : String) (multiplier duration : ℚ)
    (btype : BoostType) (state : GameState) : GameState :=
  { state with activeBoosts := state.activeBoosts ++
      [{ abilityId := abilityId, name := abilityName, multiplier := multiplier
         expiresAt := now + duration * 1000, type := btype }] }

/-- Source boost-expiry filter in the page's game loop: keeps boosts whose
`expiresAt` is still in the future. -/
def filterExpiredBoosts (now : ℚ) (state : GameState) : GameState :=
  { state with activeBoosts := state.activeBoosts.filter (fun b => now < b.expiresAt) }

-- ===========================================================================
-- The tick (source: the game-loop override installed in routes/+page.svelte;
-- the GameEngine class's own tick body has every subsystem call left as a
-- TODO comment and performs only the deltaTime/auto-save bookkeeping)
-- ===========================================================================

/-- Source deltaTime computation of the tick:
`(now - lastTickTime) / 1000` seconds, with no clamping. -/
def tickDeltaTime (nowPerf lastTickTime : ℚ) : ℚ :=
  (nowPerf - lastTickTime) / 1000

/-- Source game-loop tick installed in routes/+page.svelte: computes the
deltaTime, accumulates `totalTimePlayed`, then runs `processSongQueue`,
`generateIncome` and `generateFans` and filters expired boosts. Legacy
income, album sales, tour processing and platform income appear in that
loop only as placeholder comments and are not invoked. `performance.now()`
is the `nowPerf` parameter and `Date.now()` the `nowDate` parameter; the
engine-private `lastTickTime` is the explicit parameter (the auto-save
branch touches no game-state field modelled here). -/
def tick (nowPerf nowDate lastTickTime : ℚ) (state : GameState) : GameState :=
  let deltaTime := tickDeltaTime nowPerf lastTickTime
  let s := { state with totalTimePlayed := state.totalTimePlayed + deltaTime }
  let s := processSongQueue s deltaTime
  let s := generateIncome nowDate s deltaTime
  let s := generateFans nowDate s deltaTime
  filterExpiredBoosts nowDate s

/-- Modelled from the spec (sections 2 and 4.1): the full per-tick pipeline
the spec prescribes, as a sequential composition of the repository's
subsystem update functions in the spec's fixed order: song queue, income
integration, fan growth, album sales, tour expiry, boost expiry and
legacy-artist income. This definition follows the spec's words, for
comparison against `tick` (the code). Platform passive income is named by
the spec but has no formula in either the spec or the repository and is
omitted from the comparison; the albums step takes the same abstracted
`demand`/`fanMult` factors as `processAlbumSales`. -/
def specTickPipeline (nowPerf nowDate lastTickTime demand fanMult : ℚ)
    (state : GameState) : GameState :=
  let deltaTime := tickDeltaTime nowPerf lastTickTime
  let s := { state with totalTimePlayed := state.totalTimePlayed + deltaTime }
  let s := processSongQueue s deltaTime
  let s := generateIncome nowDate s deltaTime
  let s := generateFans nowDate s deltaTime
  let s := processAlbumSales demand fanMult s deltaTime
  let s := processTour nowDate s
  let s := filterExpiredBoosts nowDate s
  applyLegacyIncome s deltaTime

-- ===========================================================================
-- Initial state (source: createInitialGameState in config.ts)
-- ===========================================================================

/-- Source `createInitialGameState`. Balance values come from
balance-config.json, which is not in the repository; the values used are
the ones the source's inline comments record ($10 starting money, 14-day
minimum tour cooldown). The source initialises `songsInQueue` with an
empty-array literal; every live system reads it as a numeric count, so the
empty queue is the count 0. The `Date.now()` stamps are the explicit
`now` parameter. -/
def createInitialGameState (now : ℚ) : GameState :=
  { version := "1.0.0"
    money := 10
    gpu := 0
    currentArtist := { name := "New Artist", totalSongs := 0, fans := 0, peakFans := 0 }
    legacyArtists := []
    totalPrestiges := 0
    totalCompletedSongs := 0
    songsInQueue := 0
    currentSongProgress := 0
    currentTechTier := 1
    purchasedUpgrades := []
    activeBoosts := []
    activeAlbumBatch := none
    lastAlbumTimestamp := 0
    totalAlbumsReleased := 0
    activeTour := none
    lastTourEndTime := 0
    tourCooldownSeconds := 14 * 24 * 60 * 60
    totalToursCompleted := 0
    ownedPlatforms := []
    industryControl := 0
    unlockedSystems :=
      { prestige := false, gpu := false, physicalAlbums := false, tours := false
        platformOwnership := false, trendResearch := false }
    trendingGenre := "pop"
    experienceMultiplier := 1
    lastSaveTime := now
    totalTimePlayed := 0
    gameStartTime := now }

-- ===========================================================================
-- Save validation (source: validateSave in game/save.ts).  Deserialized
-- numeric fields are arbitrary JavaScript numbers, including NaN and the
-- infinities, so they are modelled by an explicit JS-number type with
-- JavaScript's comparison semantics.
-- ===========================================================================

/-- A JavaScript number as seen by `validateSave`: a finite value, NaN, or
an infinity. `typeof` yields `number` for all four constructors. -/
inductive JSNum where
  | val (q : ℚ)
  | nan
  | posInf
  | negInf
deriving DecidableEq, Repr

/-- JavaScript's `<` on numbers: false whenever either side is NaN;
the infinities compare as expected. -/
def jsLt : JSNum → JSNum → Bool
  | JSNum.val a, JSNum.val b => decide (a < b)
  | JSNum.val _, JSNum.posInf => true
  | JSNum.negInf, JSNum.val _ => true
  | JSNum.negInf, JSNum.posInf => true
  | _, _ => false

/-- JavaScript's `isFinite`: true only for actual finite values. -/
def JSNum.isFinite : JSNum → Bool
  | JSNum.val _ => true
  | _ => false

/-- A candidate save state at the validation boundary, restricted to
candidates that pass `validateSave`'s structural checks (every required
top-level property present, `currentArtist.name` a string,
`purchasedUpgrades` and `legacyArtists` arrays, and every numeric field of
JavaScript type `number` — which NaN and the infinities are). The numeric
fields named by the section-6 contract are arbitrary JS numbers. -/
structure SaveCandidate where
  artistName : String
  artistTotalSongs : JSNum
  artistFans : JSNum
  songsInQueue : JSNum
  money : JSNum
  industryControl : JSNum
  purchasedUpgrades : List String
  legacyArtists : List String
deriving DecidableEq, Repr

/-- Source `validateSave` in game/save.ts, on a structurally well-formed
candidate (see `SaveCandidate`): the presence and `typeof`/array checks
all pass, so what remains are, in source order, the range checks —
`songsInQueue < 0` fails; `money < 0 || !isFinite(money)` fails;
`industryControl < 0 || industryControl > 100 || !isFinite(industryControl)`
fails; otherwise the candidate is accepted. `currentArtist.totalSongs` and
`currentArtist.fans` are checked only with `typeof === 'number'`. -/
def validateSave (c : SaveCandidate) : Bool :=
  if jsLt c.songsInQueue (JSNum.val 0) then false
  else if jsLt c.money (JSNum.val 0) || !c.money.isFinite then false
  else if jsLt (JSNum.val 100) c.industryControl
      || jsLt c.industryControl (JSNum.val 0)
      || !c.industryControl.isFinite then false
  else true

-- ===========================================================================
-- The operation alphabet and reachable states, for the whole-system
-- invariants.  Every state-mutating entry point defined above appears as
-- one operation; external inputs (clock reads, generated names/ids,
-- user-chosen counts and prices, the abstracted album factors) are the
-- operation's parameters.
-- ===========================================================================

/-- Every state-mutating operation of the system: the wired per-tick update
and each subsystem's own per-tick update, plus the user-triggered actions
(queueing songs, purchases, album press, tour start, boost activation,
prestige). -/
inductive Op where
  | opTick (nowPerf nowDate lastTick : ℚ)
  | opProcessSongs (deltaTime : ℚ)
  | opIncome (now deltaTime : ℚ)
  | opFans (now deltaTime : ℚ)
  | opLegacyIncome (deltaTime : ℚ)
  | opAlbumSales (demand fanMult deltaTime : ℚ)
  | opProcessTour (now : ℚ)
  | opFilterBoosts (now : ℚ)
  | opQueueSongs (count : ℕ)
  | opPurchaseTech (upgradeId : String)
  | opPurchasePlatform (platformId : String)
  | opPressAlbum (now : ℚ) (albumId albumName : String) (copies pricePerCopy : ℚ)
  | opStartTour (now : ℚ) (tourId tourName : String) (tier : ℕ)
  | opActivateBoost (now : ℚ) (abilityId abilityName : String) (multiplier duration : ℚ)
      (btype : BoostType)
  | opPrestige (newName : String) (now : ℚ)
deriving DecidableEq, Repr

/-- The state transformer of one operation (success-flag-returning actions
yield their post-state, which is the pre-state when they fail). -/
def Op.apply : Op → GameState → GameState
  | Op.opTick nowPerf nowDate lastTick, s => tick nowPerf nowDate lastTick s
  | Op.opProcessSongs dt, s => processSongQueue s dt
  | Op.opIncome now dt, s => generateIncome now s dt
  | Op.opFans now dt, s => generateFans now s dt
  | Op.opLegacyIncome dt, s => applyLegacyIncome s dt
  | Op.opAlbumSales demand fanMult dt, s => processAlbumSales demand fanMult s dt
  | Op.opProcessTour now, s => processTour now s
  | Op.opFilterBoosts now, s => filterExpiredBoosts now s
  | Op.opQueueSongs count, s => (queueSongs s count).2
  | Op.opPurchaseTech upgradeId, s => (purchaseTechUpgrade s upgradeId).2
  | Op.opPurchasePlatform platformId, s => (purchasePlatform s platformId).2
  | Op.opPressAlbum now albumId albumName copies price, s =>
      (pressAlbum now albumId albumName s copies price).2
  | Op.opStartTour now tourId tourName tier, s => (startTour now tourId tourName s tier).2
  | Op.opActivateBoost now abilityId abilityName mult dur btype, s =>
      activateBoost now abilityId abilityName mult dur btype s
  | Op.opPrestige newName now, s => (performPrestige newName now s).2

/-- States reachable from a fresh game by any sequence of operations. -/
inductive Reachable : GameState → Prop
  | init (now : ℚ) : Reachable (createInitialGameState now)
  | step {s : GameState} (op : Op) : Reachable s → Reachable (op.apply s)

-- ===========================================================================
-- Helper lemmas
-- ===========================================================================

lemma songCompletionLoop_drain (q : ℕ) (p : ℚ) (c : ℕ) (hq : 0 < q)
    (h : (songCompletionLoop q p c).1 = 0) : (songCompletionLoop q p c).2.1 = 0 := by
  induction q generalizing p c with
  | zero => omega
  | succ n ih =>
    rw [songCompletionLoop] at h ⊢
    by_cases hp : 1 ≤ p
    · simp only [if_pos hp] at h ⊢
      match n, h with
      | 0, _ => simp [songCompletionLoop]
      | m + 1, h => exact ih _ _ (Nat.succ_pos m) h
    · simp only [if_neg hp] at h
      exact absurd h (Nat.succ_ne_zero n)

lemma processSongQueue_drain (s : GameState) (dt : ℚ) (hq : 0 < s.songsInQueue)
    (h : (processSongQueue s dt).songsInQueue = 0) :
    (processSongQueue s dt).currentSongProgress = 0 := by
  rw [processSongQueue] at h ⊢
  have hne : ¬ s.songsInQueue = 0 := by omega
  simp only [if_neg hne] at h ⊢
  exact songCompletionLoop_drain _ _ _ hq h

lemma applyTechEffects_frame (s : GameState) (u : TechUpgradeDef) :
    (applyTechEffects s u).totalCompletedSongs = s.totalCompletedSongs ∧
    (applyTechEffects s u).industryControl = s.industryControl ∧
    (applyTechEffects s u).ownedPlatforms = s.ownedPlatforms := by
  unfold applyTechEffects
  dsimp only
  split_ifs <;> exact ⟨rfl, rfl, rfl⟩

lemma processSongQueue_frame (s : GameState) (dt : ℚ) :
    s.totalCompletedSongs ≤ (processSongQueue s dt).totalCompletedSongs ∧
    (processSongQueue s dt).industryControl = s.industryControl ∧
    (processSongQueue s dt).ownedPlatforms = s.ownedPlatforms := by
  unfold processSongQueue
  dsimp only
  split
  · exact ⟨le_refl _, rfl, rfl⟩
  · exact ⟨Nat.le_add_right _ _, rfl, rfl⟩

lemma applyLegacyIncome_frame (s : GameState) (dt : ℚ) :
    (applyLegacyIncome s dt).totalCompletedSongs = s.totalCompletedSongs ∧
    (applyLegacyIncome s dt).industryControl = s.industryControl ∧
    (applyLegacyIncome s dt).ownedPlatforms = s.ownedPlatforms := by
  unfold applyLegacyIncome
  dsimp only
  split <;> exact ⟨rfl, rfl, rfl⟩

lemma processAlbumSales_frame (demand fanMult : ℚ) (s : GameState) (dt : ℚ) :
    (processAlbumSales demand fanMult s dt).totalCompletedSongs = s.totalCompletedSongs ∧
    (processAlbumSales demand fanMult s dt).industryControl = s.industryControl ∧
    (processAlbumSales demand fanMult s dt).ownedPlatforms = s.ownedPlatforms := by
  unfold processAlbumSales
  split
  · exact ⟨rfl, rfl, rfl⟩
  · dsimp only
    split
    · exact ⟨rfl, rfl, rfl⟩
    · split <;> exact ⟨rfl, rfl, rfl⟩

lemma processTour_frame (now : ℚ) (s : GameState) :
    (processTour now s).totalCompletedSongs = s.totalCompletedSongs ∧
    (processTour now s).industryControl = s.industryControl ∧
    (processTour now s).ownedPlatforms = s.ownedPlatforms := by
  unfold processTour
  split
  · exact ⟨rfl, rfl, rfl⟩
  · dsimp only
    split <;> exact ⟨rfl, rfl, rfl⟩

lemma queueSongs_frame (s : GameState) (count : ℕ) :
    ((queueSongs s count).2).totalCompletedSongs = s.totalCompletedSongs ∧
    ((queueSongs s count).2).industryControl = s.industryControl ∧
    ((queueSongs s count).2).ownedPlatforms = s.ownedPlatforms := by
  unfold queueSongs
  dsimp only
  split <;> exact ⟨rfl, rfl, rfl⟩

lemma purchaseTechUpgrade_frame (s : GameState) (id : String) :
    ((purchaseTechUpgrade s id).2).totalCompletedSongs = s.totalCompletedSongs ∧
    ((purchaseTechUpgrade s id).2).industryControl = s.industryControl ∧
    ((purchaseTechUpgrade s id).2).ownedPlatforms = s.ownedPlatforms := by
  unfold purchaseTechUpgrade
  split
  · exact ⟨rfl, rfl, rfl⟩
  · rename_i u _
    dsimp only
    have h := applyTechEffects_frame
      { s with money := s.money - u.cost, purchasedUpgrades := s.purchasedUpgrades ++ [id] } u
    split_ifs <;> first
      | exact ⟨rfl, rfl, rfl⟩
      | exact ⟨h.1, h.2.1, h.2.2⟩

lemma pressAlbum_frame (now : ℚ) (aId aName : String) (s : GameState) (copies price : ℚ) :
    ((pressAlbum now aId aName s copies price).2).totalCompletedSongs = s.totalCompletedSongs ∧
    ((pressAlbum now aId aName s copies price).2).industryControl = s.industryControl ∧
    ((pressAlbum now aId aName s copies price).2).ownedPlatforms = s.ownedPlatforms := by
  unfold pressAlbum
  split <;> exact ⟨rfl, rfl, rfl⟩

lemma startTour_frame (now : ℚ) (tId tName : String) (s : GameState) (tier : ℕ) :
    ((startTour now tId tName s tier).2).totalCompletedSongs = s.totalCompletedSongs ∧
    ((startTour now tId tName s tier).2).industryControl = s.industryControl ∧
    ((startTour now tId tName s tier).2).ownedPlatforms = s.ownedPlatforms := by
  unfold startTour
  split
  · exact ⟨rfl, rfl, rfl⟩
  · split <;> exact ⟨rfl, rfl, rfl⟩

lemma performPrestige_frame_all (newName : String) (now : ℚ) (s : GameState) :
    ((performPrestige newName now s).2).industryControl = s.industryControl ∧
    ((performPrestige newName now s).2).purchasedUpgrades = s.purchasedUpgrades ∧
    ((performPrestige newName now s).2).currentTechTier = s.currentTechTier ∧
    ((performPrestige newName now s).2).ownedPlatforms = s.ownedPlatforms ∧
    ((performPrestige newName now s).2).unlockedSystems = s.unlockedSystems := by
  unfold performPrestige
  dsimp only
  split <;> exact ⟨rfl, rfl, rfl, rfl, rfl⟩

lemma generateIncome_frame (now : ℚ) (s : GameState) (dt : ℚ) :
    (generateIncome now s dt).totalCompletedSongs = s.totalCompletedSongs ∧
    (generateIncome now s dt).industryControl = s.industryControl ∧
    (generateIncome now s dt).ownedPlatforms = s.ownedPlatforms :=
  ⟨rfl, rfl, rfl⟩

lemma generateFans_frame (now : ℚ) (s : GameState) (dt : ℚ) :
    (generateFans now s dt).totalCompletedSongs = s.totalCompletedSongs ∧
    (generateFans now s dt).industryControl = s.industryControl ∧
    (generateFans now s dt).ownedPlatforms = s.ownedPlatforms := by
  unfold generateFans updatePeakFans
  dsimp only
  split <;> exact ⟨rfl, rfl, rfl⟩

lemma filterExpiredBoosts_frame (now : ℚ) (s : GameState) :
    (filterExpiredBoosts now s).totalCompletedSongs = s.totalCompletedSongs ∧
    (filterExpiredBoosts now s).industryControl = s.industryControl ∧
    (filterExpiredBoosts now s).ownedPlatforms = s.ownedPlatforms :=
  ⟨rfl, rfl, rfl⟩

lemma tick_frame (nowPerf nowDate lastTick : ℚ) (s : GameState) :
    s.totalCompletedSongs ≤ (tick nowPerf nowDate lastTick s).totalCompletedSongs ∧
    (tick nowPerf nowDate lastTick s).industryControl = s.industryControl ∧
    (tick nowPerf nowDate lastTick s).ownedPlatforms = s.ownedPlatforms := by
  unfold tick
  simp only [filterExpiredBoosts_frame, generateFans_frame, generateIncome_frame]
  exact processSongQueue_frame
    { s with totalTimePlayed := s.totalTimePlayed + tickDeltaTime nowPerf lastTick }
    (tickDeltaTime nowPerf lastTick)

-- ===========================================================================
-- Concrete states used by the claims' instances and witnesses
-- ===========================================================================

/-- The section-8 song-queue scenario: a fresh tier-1 state with two songs
queued and no progress. -/
def c6state : GameState :=
  { createInitialGameState 0 with songsInQueue := 2 }

/-- The section-8 income scenario: a fresh tier-1 state with 10 completed
songs and 100 fans (no platforms, tour or boosts). -/
def c7state : GameState :=
  { createInitialGameState 0 with
      totalCompletedSongs := 10
      currentArtist :=
        { name := "New Artist"
          totalSongs := 0
          fans := 100
          peakFans := 0 } }

/-- A state with the prestige system unlocked and five completed songs. -/
def prestigeReadyState : GameState :=
  { createInitialGameState 0 with
      totalCompletedSongs := 5
      unlockedSystems :=
        { prestige := true
          gpu := false
          physicalAlbums := false
          tours := false
          platformOwnership := false
          trendResearch := false } }

/-- A save candidate that is structurally valid, has valid money and
industry control, but carries `NaN` in `songsInQueue`. -/
def candNaNQueue : SaveCandidate :=
  { artistName := "a"
    artistTotalSongs := JSNum.val 0
    artistFans := JSNum.val 0
    songsInQueue := JSNum.nan
    money := JSNum.val 5
    industryControl := JSNum.val 0
    purchasedUpgrades := []
    legacyArtists := [] }

-- ===========================================================================
-- Claim theorems
-- ===========================================================================

/-- C2, counterexample: the claim says `performPrestige` never decreases
`totalCompletedSongs`, but from a prestige-unlocked state with 5 completed
songs a successful prestige resets the counter to 0, strictly decreasing
it. -/
theorem prestige_decreases_songs_counterexample :
    (performPrestige "A" 0 prestigeReadyState).1 = true ∧
    ((performPrestige "A" 0 prestigeReadyState).2).totalCompletedSongs
      < prestigeReadyState.totalCompletedSongs := by
  constructor
  · simp [performPrestige, canPrestige, prestigeReadyState, createInitialGameState]
  · simp [performPrestige, canPrestige, prestigeReadyState, createInitialGameState]

/-- C2, amended: `totalCompletedSongs` is monotonically non-decreasing under
every operation except prestige (in particular under every per-tick
subsystem update and the wired tick), while a `performPrestige` call
resets it to 0 exactly when it succeeds and leaves it unchanged when it
fails. -/
theorem totalCompletedSongs_monotone_except_prestige :
    (∀ (s : GameState) (op : Op), (∀ name now, op ≠ Op.opPrestige name now) →
      s.totalCompletedSongs ≤ (op.apply s).totalCompletedSongs) ∧
    (∀ (newName : String) (now : ℚ) (s : GameState),
      ((performPrestige newName now s).2).totalCompletedSongs =
        if (performPrestige newName now s).1 = true then 0 else s.totalCompletedSongs) := by
  constructor
  · intro s op hop
    cases op with
    | opTick nowPerf nowDate lastTick => exact (tick_frame nowPerf nowDate lastTick s).1
    | opProcessSongs dt => exact (processSongQueue_frame s dt).1
    | opIncome now dt => exact le_refl _
    | opFans now dt => exact le_of_eq (generateFans_frame now s dt).1.symm
    | opLegacyIncome dt => exact le_of_eq (applyLegacyIncome_frame s dt).1.symm
    | opAlbumSales demand fanMult dt =>
      exact le_of_eq (processAlbumSales_frame demand fanMult s dt).1.symm
    | opProcessTour now => exact le_of_eq (processTour_frame now s).1.symm
    | opFilterBoosts now => exact le_refl _
    | opQueueSongs count => exact le_of_eq (queueSongs_frame s count).1.symm
    | opPurchaseTech upgradeId => exact le_of_eq (purchaseTechUpgrade_frame s upgradeId).1.symm
    | opPurchasePlatform platformId =>
      unfold Op.apply purchasePlatform
      dsimp only
      split
      · exact le_refl _
      · split
        · exact le_refl _
        · exact le_refl _
    | opPressAlbum now albumId albumName copies price =>
      exact le_of_eq (pressAlbum_frame now albumId albumName s copies price).1.symm
    | opStartTour now tourId tourName tier =>
      exact le_of_eq (startTour_frame now tourId tourName s tier).1.symm
    | opActivateBoost now abilityId abilityName mult dur btype => exact le_refl _
    | opPrestige newName now => exact absurd rfl (hop newName now)
  · intro newName now s
    unfold performPrestige
    dsimp only
    split
    · simp
    · simp

/-- C2, amended-theorem witness: at a fresh state and a concrete non-prestige
operation the counter does not decrease, and at a prestige-unlocked state
the prestige branch evaluates to the reset value 0. -/
theorem totalCompletedSongs_monotone_except_prestige_witness :
    (createInitialGameState 0).totalCompletedSongs ≤
      ((Op.opProcessSongs 1).apply (createInitialGameState 0)).totalCompletedSongs ∧
    ((performPrestige "A" 0 prestigeReadyState).2).totalCompletedSongs =
      (if (performPrestige "A" 0 prestigeReadyState).1 = true then 0
       else prestigeReadyState.totalCompletedSongs) := by
  constructor
  · exact totalCompletedSongs_monotone_except_prestige.1 (createInitialGameState 0)
      (Op.opProcessSongs 1) (fun name now => by simp)
  · exact totalCompletedSongs_monotone_except_prestige.2 "A" 0 prestigeReadyState

/-- C4: whenever `performPrestige` succeeds, `industryControl`,
`purchasedUpgrades`, `currentTechTier`, `ownedPlatforms` and
`unlockedSystems` in the resulting state are exactly the pre-call values —
prestige writes none of them. -/
theorem performPrestige_account_scoped_frame (s : GameState) (newName : String) (now : ℚ)
    (_h : (performPrestige newName now s).1 = true) :
    ((performPrestige newName now s).2).industryControl = s.industryControl ∧
    ((performPrestige newName now s).2).purchasedUpgrades = s.purchasedUpgrades ∧
    ((performPrestige newName now s).2).currentTechTier = s.currentTechTier ∧
    ((performPrestige newName now s).2).ownedPlatforms = s.ownedPlatforms ∧
    ((performPrestige newName now s).2).unlockedSystems = s.unlockedSystems :=
  performPrestige_frame_all newName now s

/-- C4 witness: a concrete prestige-unlocked state on which the prestige
succeeds and the five account-scoped fields are preserved. -/
theorem performPrestige_account_scoped_frame_witness :
    (performPrestige "A" 0 prestigeReadyState).1 = true ∧
    ((performPrestige "A" 0 prestigeReadyState).2).industryControl
      = prestigeReadyState.industryControl := by
  have hsucc : (performPrestige "A" 0 prestigeReadyState).1 = true := by
    simp [performPrestige, canPrestige, prestigeReadyState, createInitialGameState]
  exact ⟨hsucc, (performPrestige_account_scoped_frame prestigeReadyState "A" 0 hsucc).1⟩

/-- C5: `queueSongs` charges the tech tier's per-song cost times the count —
$1 per song at tier 1 and $0 at tiers 2 through 7 — and either fails with
no mutation when money is short, or succeeds deducting exactly the cost
and enlarging the queue by exactly the count. (Tiers are 1–7 in the data
model; `getTechTier` falls back to the tier-1 row outside the table.) -/
theorem queueSongs_cost_correct (state : GameState) (count : ℕ) :
    (state.currentTechTier = 1 → calculateSongCost state count = count) ∧
    (2 ≤ state.currentTechTier → state.currentTechTier ≤ 7 →
      calculateSongCost state count = 0) ∧
    (state.money < calculateSongCost state count →
      queueSongs state count = (false, state)) ∧
    (calculateSongCost state count ≤ state.money →
      queueSongs state count =
        (true, { state with
                   money := state.money - calculateSongCost state count
                   songsInQueue := state.songsInQueue + count })) := by
  refine ⟨?_, ?_, ?_, ?_⟩
  · intro h1
    simp [calculateSongCost, getTechTier, TECH_TIERS, TECH_TIER_1, List.find?, h1]
  · intro h2 h7
    set t := state.currentTechTier with ht
    interval_cases t <;>
      simp [calculateSongCost, getTechTier, TECH_TIERS, TECH_TIER_1, TECH_TIER_2, TECH_TIER_3,
        TECH_TIER_4, TECH_TIER_5, TECH_TIER_6, TECH_TIER_7, List.find?, ← ht]
  · intro hlt
    simp [queueSongs, if_pos hlt]
  · intro hle
    simp [queueSongs, not_lt_of_le hle]

/-- C5 witness: on a fresh state (tier 1, $10), queueing 3 songs costs $3
and succeeds. -/
theorem queueSongs_cost_correct_witness :
    calculateSongCost (createInitialGameState 0) 3 = 3 ∧
    (queueSongs (createInitialGameState 0) 3).1 = true := by
  have h := queueSongs_cost_correct (createInitialGameState 0) 3
  have htier : (createInitialGameState 0).currentTechTier = 1 := rfl
  have hle : calculateSongCost (createInitialGameState 0) 3 ≤ (createInitialGameState 0).money := by
    norm_num [calculateSongCost, getTechTier, TECH_TIERS, TECH_TIER_1, createInitialGameState,
      List.find?]
  exact ⟨h.1 htier, by rw [h.2.2.2 hle]⟩

/-- C6: from 2 queued songs, zero progress and tier 1 (30 s per song),
advancing 35 s completes exactly one song, leaves one in the queue and
carries 35/30 − 1 = 1/6 of progress over; and whenever a call drains a
non-empty queue, the resulting progress is forced to 0. -/
theorem processSongQueue_carryover :
    (processSongQueue c6state 35 =
      { c6state with
          totalCompletedSongs := 1
          songsInQueue := 1
          currentSongProgress := 1/6 }) ∧
    (∀ (s : GameState) (dt : ℚ), 0 < s.songsInQueue →
      (processSongQueue s dt).songsInQueue = 0 →
      (processSongQueue s dt).currentSongProgress = 0) := by
  constructor
  · norm_num [processSongQueue, songCompletionLoop, getTechTier, TECH_TIERS, TECH_TIER_1,
      createInitialGameState, c6state, List.find?]
  · exact fun s dt => processSongQueue_drain s dt

/-- C6 witness: one queued song advanced by a full 30 s drains the queue and
the drain clause of the theorem forces progress to 0 there. -/
theorem processSongQueue_carryover_witness :
    0 < ({ createInitialGameState 0 with songsInQueue := 1 } : GameState).songsInQueue ∧
    (processSongQueue { createInitialGameState 0 with songsInQueue := 1 } 30).songsInQueue = 0 ∧
    (processSongQueue { createInitialGameState 0 with songsInQueue := 1 } 30).currentSongProgress
      = 0 := by
  refine ⟨by norm_num, ?_, ?_⟩
  · norm_num [processSongQueue, songCompletionLoop, getTechTier, TECH_TIERS, TECH_TIER_1,
      createInitialGameState, List.find?]
  · apply processSongQueue_carryover.2
    · norm_num
    · norm_num [processSongQueue, songCompletionLoop, getTechTier, TECH_TIERS, TECH_TIER_1,
        createInitialGameState, List.find?]

/-- C7: the streaming income rate is exactly
songs × fans × 0.001 × platform multiplier × tech income multiplier ×
experience multiplier, is linear in the song count and in the fan count
(no exponential term), and on the section-8 state (10 songs, 100 fans,
tier 1, no platforms/tour/boosts) both the streaming rate and the total
income rate are exactly 1 per second. -/
theorem streamingIncome_linear_formula :
    (∀ s : GameState,
      calculateStreamingIncome s =
        (s.totalCompletedSongs : ℚ) * s.currentArtist.fans * BASE_STREAMING_RATE
          * calculatePlatformMultiplier s
          * (getTechTier s.currentTechTier).incomeMultiplier
          * s.experienceMultiplier) ∧
    (∀ (s : GameState) (k : ℕ),
      calculateStreamingIncome { s with totalCompletedSongs := k * s.totalCompletedSongs } =
        (k : ℚ) * calculateStreamingIncome s) ∧
    (∀ (s : GameState) (k : ℚ),
      calculateStreamingIncome
          { s with currentArtist := { s.currentArtist with fans := k * s.currentArtist.fans } } =
        k * calculateStreamingIncome s) ∧
    calculateStreamingIncome c7state = 1 ∧
    (∀ now : ℚ, calculateTotalIncome now c7state = 1) := by
  refine ⟨?_, ?_, ?_, ?_, ?_⟩
  · intro s; rfl
  · intro s k
    simp only [calculateStreamingIncome, calculatePlatformMultiplier]
    push_cast
    ring
  · intro s k
    simp only [calculateStreamingIncome, calculatePlatformMultiplier]
    ring
  · norm_num [calculateStreamingIncome, calculatePlatformMultiplier, BASE_STREAMING_RATE,
      PLATFORM_MULTIPLIER_DEFAULT, getTechTier, TECH_TIERS, TECH_TIER_1, createInitialGameState,
      c7state, List.find?]
  · intro now
    norm_num [calculateTotalIncome, applyIncomeBoosts, applyTourMultiplier,
      calculateStreamingIncome, calculatePlatformMultiplier, BASE_STREAMING_RATE,
      PLATFORM_MULTIPLIER_DEFAULT, getTechTier, TECH_TIERS, TECH_TIER_1, createInitialGameState,
      c7state, List.find?]

lemma processSongQueue_time (s : GameState) (dt : ℚ) :
    (processSongQueue s dt).totalTimePlayed = s.totalTimePlayed := by
  unfold processSongQueue
  dsimp only
  split <;> rfl

lemma generateIncome_time (now : ℚ) (s : GameState) (dt : ℚ) :
    (generateIncome now s dt).totalTimePlayed = s.totalTimePlayed := rfl

lemma generateFans_time (now : ℚ) (s : GameState) (dt : ℚ) :
    (generateFans now s dt).totalTimePlayed = s.totalTimePlayed := by
  unfold generateFans updatePeakFans
  dsimp only
  split <;> rfl

lemma filterExpiredBoosts_time (now : ℚ) (s : GameState) :
    (filterExpiredBoosts now s).totalTimePlayed = s.totalTimePlayed := rfl

lemma tick_totalTimePlayed (nowPerf nowDate lastTick : ℚ) (s : GameState) :
    (tick nowPerf nowDate lastTick s).totalTimePlayed =
      s.totalTimePlayed + tickDeltaTime nowPerf lastTick := by
  unfold tick
  simp only [filterExpiredBoosts_time, generateFans_time, generateIncome_time,
    processSongQueue_time]

/-- A state whose active tour has already expired (endTime 5, with the clock
at 100) and which has one legacy artist earning 80 per second; fresh
otherwise. -/
def staleState : GameState :=
  { createInitialGameState 0 with
      legacyArtists :=
        [{ name := "L"
           totalSongs := 100
           fans := 100
           incomeMultiplier := 0.8
           createdAt := 0 }]
      activeTour := some
        { id := "t"
          name := "T"
          tier := 1
          startTime := 0
          endTime := 5
          durationSeconds := 30
          revenueMultiplier := 1.5
          cost := 500 } }

/-- C1: the wired per-tick update does not apply every subsystem of the
spec's fixed pipeline. At a state with an expired active tour and a
legacy artist, one tick leaves money untouched (no legacy income) and
leaves the expired tour in place, although the repository's own
`processTour` would clear it and `applyLegacyIncome` would add 80; hence
the tick differs from the sequential composition of the subsystem updates
prescribed by the spec (`specTickPipeline`). -/
theorem tick_omits_spec_subsystems :
    (tick 1000 100 0 staleState).money = staleState.money ∧
    (tick 1000 100 0 staleState).activeTour = staleState.activeTour ∧
    (processTour 100 staleState).activeTour = none ∧
    (applyLegacyIncome staleState 1).money = staleState.money + 80 ∧
    (specTickPipeline 1000 100 0 1 1 staleState).money = staleState.money + 80 ∧
    tick 1000 100 0 staleState ≠ specTickPipeline 1000 100 0 1 1 staleState := by
  have hmt : (tick 1000 100 0 staleState).money = staleState.money := by
    norm_num [tick, tickDeltaTime, processSongQueue, generateIncome, generateFans,
      updatePeakFans, filterExpiredBoosts, calculateTotalIncome, applyIncomeBoosts,
      applyTourMultiplier, calculateStreamingIncome, calculatePlatformMultiplier,
      applyFanBoosts, calculateFanGeneration, BASE_STREAMING_RATE,
      PLATFORM_MULTIPLIER_DEFAULT, BASE_FAN_RATE, CROSS_PROMOTION_RATE, getTechTier,
      TECH_TIERS, TECH_TIER_1, staleState, createInitialGameState]
  have hmp : (specTickPipeline 1000 100 0 1 1 staleState).money = staleState.money + 80 := by
    norm_num [specTickPipeline, tickDeltaTime, processSongQueue, generateIncome, generateFans,
      updatePeakFans, filterExpiredBoosts, processAlbumSales, processTour, applyLegacyIncome,
      calculateLegacyIncome, calculateTotalIncome, applyIncomeBoosts, applyTourMultiplier,
      calculateStreamingIncome, calculatePlatformMultiplier, applyFanBoosts,
      calculateFanGeneration, BASE_STREAMING_RATE,
      PLATFORM_MULTIPLIER_DEFAULT, BASE_FAN_RATE, CROSS_PROMOTION_RATE, getTechTier,
      TECH_TIERS, TECH_TIER_1, getTourTier, TOUR_TIERS, staleState, createInitialGameState]
  refine ⟨hmt, ?_, ?_, ?_, hmp, ?_⟩
  · norm_num [tick, tickDeltaTime, processSongQueue, generateIncome, generateFans,
      updatePeakFans, calculateFanGeneration, applyFanBoosts, filterExpiredBoosts,
      staleState, createInitialGameState]
  · norm_num [processTour, getTourTier, TOUR_TIERS, staleState, createInitialGameState]
  · norm_num [applyLegacyIncome, calculateLegacyIncome, staleState, createInitialGameState]
  · intro h
    rw [h, hmp] at hmt
    norm_num [staleState, createInitialGameState] at hmt

/-- C3: the tick's deltaTime is not clamped at 0. When the clock reads 1000
with `lastTickTime` 2000 (a regression), the computed deltaTime is −1
second and it is applied to the state: `totalTimePlayed` strictly
decreases. -/
theorem tick_negative_deltaTime_applied :
    tickDeltaTime 1000 2000 = -1 ∧
    (tick 1000 0 2000 (createInitialGameState 0)).totalTimePlayed =
      (createInitialGameState 0).totalTimePlayed - 1 ∧
    (tick 1000 0 2000 (createInitialGameState 0)).totalTimePlayed
      < (createInitialGameState 0).totalTimePlayed := by
  refine ⟨by norm_num [tickDeltaTime], ?_, ?_⟩ <;>
    rw [tick_totalTimePlayed] <;>
      norm_num [tickDeltaTime, createInitialGameState]

/-- A state that owns the 1.2× and 1.3× platforms and nothing else. -/
def twoPlatformState : GameState :=
  { createInitialGameState 0 with
      ownedPlatforms := ["platform_spotify", "platform_label"] }

/-- The 1.2× platform's row of `ALL_PLATFORMS`, as produced by
`getPlatformById`. -/
lemma getPlatformById_spotify :
    getPlatformById "platform_spotify" = some
      { id := "platform_spotify"
        name := "Spotify Clone"
        cost := 100000
        incomeMultiplier := 1.2
        controlContribution := 10 } := by
  simp [getPlatformById, ALL_PLATFORMS]

/-- The 1.3× platform's row of `ALL_PLATFORMS`, as produced by
`getPlatformById`. -/
lemma getPlatformById_label :
    getPlatformById "platform_label" = some
      { id := "platform_label"
        name := "Record Label"
        cost := 500000
        incomeMultiplier := 1.3
        controlContribution := 15 } := by
  simp [getPlatformById, ALL_PLATFORMS]

/-- C8, counterexample: owning the 1.2× and 1.3× platforms, the multiplier
the per-tick income path actually applies is 1, not the product 1.56, and
the streaming income is identical to owning no platforms; the
product-of-multipliers value 1.56 is computed only by the unused
`getPlatformIncomeMultiplier`. -/
theorem platformMultiplier_product_counterexample :
    calculatePlatformMultiplier twoPlatformState = 1 ∧
    getPlatformIncomeMultiplier twoPlatformState = 1.56 ∧
    calculateStreamingIncome
        { c7state with ownedPlatforms := ["platform_spotify", "platform_label"] } =
      calculateStreamingIncome c7state := by
  refine ⟨?_, ?_, ?_⟩
  · have hm : ¬ ("streaming_platform" ∈ ["platform_spotify", "platform_label"]) := by decide
    simp only [calculatePlatformMultiplier, PLATFORM_MULTIPLIER_DEFAULT, twoPlatformState,
      createInitialGameState, if_neg hm]
  · simp only [getPlatformIncomeMultiplier, twoPlatformState, createInitialGameState,
      List.foldl_cons, List.foldl_nil, getPlatformById_spotify, getPlatformById_label]
    norm_num
  · have hm : ¬ ("streaming_platform" ∈ ["platform_spotify", "platform_label"]) := by decide
    have hm0 : ¬ ("streaming_platform" ∈ ([] : List String)) := List.not_mem_nil _
    simp only [calculateStreamingIncome, calculatePlatformMultiplier, c7state,
      createInitialGameState, if_neg hm, if_neg hm0]

/-- Fold characterization of `getPlatformIncomeMultiplier`. -/
lemma getPlatformIncomeMultiplier_eq_prod (l : List String) (a : ℚ) :
    l.foldl
        (fun m platformId =>
          match getPlatformById platformId with
          | some platform => m * platform.incomeMultiplier
          | none => m)
        a =
      a * (l.map (fun id =>
        match getPlatformById id with
        | some platform => platform.incomeMultiplier
        | none => 1)).prod := by
  induction l generalizing a with
  | nil => simp
  | cons x xs ih =>
    simp only [List.foldl_cons, List.map_cons, List.prod_cons]
    cases h : getPlatformById x <;> simp only [h, ih] <;> ring

/-- C8, amended: the multiplier applied inside the per-tick income
calculation is 1.5 when the (never-purchasable) id `streaming_platform`
is owned and 1.0 otherwise; the product of the owned platforms'
`incomeMultiplier` values is computed by `getPlatformIncomeMultiplier`
(1.56 for the 1.2× and 1.3× platforms) but that function is not invoked
by the income path. -/
theorem platformMultiplier_income_path :
    (∀ s : GameState,
      calculatePlatformMultiplier s =
        if "streaming_platform" ∈ s.ownedPlatforms then 1.5 else 1) ∧
    (∀ s : GameState,
      getPlatformIncomeMultiplier s =
        (s.ownedPlatforms.map (fun id =>
          match getPlatformById id with
          | some platform => platform.incomeMultiplier
          | none => 1)).prod) ∧
    getPlatformIncomeMultiplier twoPlatformState = 1.56 := by
  refine ⟨?_, ?_, ?_⟩
  · intro s; rfl
  · intro s
    simpa using getPlatformIncomeMultiplier_eq_prod s.ownedPlatforms 1
  · simp only [getPlatformIncomeMultiplier, twoPlatformState, createInitialGameState,
      List.foldl_cons, List.foldl_nil, getPlatformById_spotify, getPlatformById_label]
    norm_num

/-- C9, counterexample: a structurally valid candidate whose `songsInQueue`
is NaN is accepted by `validateSave` (NaN fails the `< 0` comparison, and
no finiteness check is applied to that field). -/
theorem validateSave_accepts_nan_counterexample :
    candNaNQueue.songsInQueue = JSNum.nan ∧ validateSave candNaNQueue = true :=
  ⟨rfl, by norm_num [validateSave, jsLt, JSNum.isFinite, candNaNQueue]⟩

lemma validateSave_checks (c : SaveCandidate) :
    validateSave c = true ↔
      (jsLt c.songsInQueue (JSNum.val 0) = false ∧
       jsLt c.money (JSNum.val 0) = false ∧ c.money.isFinite = true ∧
       jsLt (JSNum.val 100) c.industryControl = false ∧
       jsLt c.industryControl (JSNum.val 0) = false ∧
       c.industryControl.isFinite = true) := by
  unfold validateSave
  cases hq : jsLt c.songsInQueue (JSNum.val 0) <;>
    cases hm1 : jsLt c.money (JSNum.val 0) <;>
      cases hm2 : c.money.isFinite <;>
        cases hi1 : jsLt (JSNum.val 100) c.industryControl <;>
          cases hi2 : jsLt c.industryControl (JSNum.val 0) <;>
            cases hi3 : c.industryControl.isFinite <;>
              simp_all

/-- C9, amended: `validateSave` rejects every candidate whose `money` or
`industryControl` is NaN or ±Infinity, and −Infinity in `songsInQueue`
(it fails the non-negativity comparison); but NaN and +Infinity in
`songsInQueue`, and NaN/±Infinity in `currentArtist.fans` and
`currentArtist.totalSongs`, pass — those fields get no finiteness check.
The final clause characterizes exactly which numeric checks the function
performs. -/
theorem validateSave_numeric_boundary :
    (∀ c : SaveCandidate, c.money.isFinite = false → validateSave c = false) ∧
    (∀ c : SaveCandidate, c.industryControl.isFinite = false → validateSave c = false) ∧
    (∀ c : SaveCandidate, c.songsInQueue = JSNum.negInf → validateSave c = false) ∧
    (∀ c : SaveCandidate, c.artistFans = JSNum.nan → c.artistTotalSongs = JSNum.posInf →
      c.songsInQueue = JSNum.nan → c.money = JSNum.val 0 → c.industryControl = JSNum.val 0 →
      validateSave c = true) ∧
    (∀ c : SaveCandidate,
      validateSave c = true ↔
        (jsLt c.songsInQueue (JSNum.val 0) = false ∧
         jsLt c.money (JSNum.val 0) = false ∧ c.money.isFinite = true ∧
         jsLt (JSNum.val 100) c.industryControl = false ∧
         jsLt c.industryControl (JSNum.val 0) = false ∧
         c.industryControl.isFinite = true)) := by
  refine ⟨?_, ?_, ?_, ?_, validateSave_checks⟩
  · intro c hf
    rw [Bool.eq_false_iff, Ne, validateSave_checks]
    simp [hf]
  · intro c hf
    rw [Bool.eq_false_iff, Ne, validateSave_checks]
    simp [hf]
  · intro c hneg
    rw [Bool.eq_false_iff, Ne, validateSave_checks]
    simp [hneg, jsLt]
  · intro c hfans hsongs hq hm hic
    rw [validateSave_checks]
    simp [hq, hm, hic, jsLt, JSNum.isFinite]

/-- C9, amended-theorem witness: the rejection clauses evaluated at a
candidate with NaN money, one with +Infinity industry control and one
with −Infinity songsInQueue, and the acceptance clause at a candidate
with NaN fans, +Infinity totalSongs and NaN songsInQueue. -/
theorem validateSave_numeric_boundary_witness :
    validateSave { candNaNQueue with money := JSNum.nan } = false ∧
    validateSave { candNaNQueue with industryControl := JSNum.posInf } = false ∧
    validateSave { candNaNQueue with songsInQueue := JSNum.negInf } = false ∧
    validateSave { candNaNQueue with
      artistFans := JSNum.nan
      artistTotalSongs := JSNum.posInf
      money := JSNum.val 0
      industryControl := JSNum.val 0 } = true := by
  refine ⟨?_, ?_, ?_, ?_⟩
  · exact validateSave_numeric_boundary.1 _ rfl
  · exact validateSave_numeric_boundary.2.1 _ rfl
  · exact validateSave_numeric_boundary.2.2.1 _ rfl
  · exact validateSave_numeric_boundary.2.2.2.1 _ rfl rfl rfl rfl rfl

-- ===========================================================================
-- Industry-control invariant (claim C10)
-- ===========================================================================

/-- The control contribution a platform id adds on purchase (0 for unknown
ids, which `purchasePlatform` rejects anyway). -/
def controlOf (id : String) : ℚ :=
  match getPlatformById id with
  | some platform => platform.controlContribution
  | none => 0

/-- The ids of the six purchasable platforms. -/
def platformIds : List String := ALL_PLATFORMS.map PlatformDef.id

/-- The inductive invariant tying `industryControl` to `ownedPlatforms`:
owned ids are distinct, all are real platforms, and the control total is
the sum of their contributions. -/
def ControlInv (s : GameState) : Prop :=
  s.ownedPlatforms.Nodup ∧ (∀ id ∈ s.ownedPlatforms, id ∈ platformIds) ∧
  s.industryControl = (s.ownedPlatforms.map controlOf).sum

lemma all_platforms_control_pos : ∀ p ∈ ALL_PLATFORMS, (0 : ℚ) < p.controlContribution := by
  intro p hp
  fin_cases hp <;> norm_num [ALL_PLATFORMS]

lemma controlOf_nonneg (id : String) : 0 ≤ controlOf id := by
  unfold controlOf
  cases h : getPlatformById id with
  | none => exact le_refl 0
  | some p =>
    have hmem : p ∈ ALL_PLATFORMS := List.mem_of_find?_eq_some h
    exact le_of_lt (all_platforms_control_pos p hmem)

/-- The 1.4× platform's row of `ALL_PLATFORMS`, as produced by
`getPlatformById`. -/
lemma getPlatformById_distributor :
    getPlatformById "platform_distributor" = some
      { id := "platform_distributor"
        name := "Distribution Network"
        cost := 2000000
        incomeMultiplier := 1.4
        controlContribution := 15 } := by
  simp [getPlatformById, ALL_PLATFORMS]

/-- The 1.5× platform's row of `ALL_PLATFORMS`, as produced by
`getPlatformById`. -/
lemma getPlatformById_radio :
    getPlatformById "platform_radio" = some
      { id := "platform_radio"
        name := "Radio Conglomerate"
        cost := 10000000
        incomeMultiplier := 1.5
        controlContribution := 20 } := by
  simp [getPlatformById, ALL_PLATFORMS]

/-- The 1.6× platform's row of `ALL_PLATFORMS`, as produced by
`getPlatformById`. -/
lemma getPlatformById_venues :
    getPlatformById "platform_venues" = some
      { id := "platform_venues"
        name := "Venue Chain"
        cost := 50000000
        incomeMultiplier := 1.6
        controlContribution := 20 } := by
  simp [getPlatformById, ALL_PLATFORMS]

/-- The 2.0× platform's row of `ALL_PLATFORMS`, as produced by
`getPlatformById`. -/
lemma getPlatformById_media :
    getPlatformById "platform_media" = some
      { id := "platform_media"
        name := "Media Empire"
        cost := 250000000
        incomeMultiplier := 2.0
        controlContribution := 20 } := by
  simp [getPlatformById, ALL_PLATFORMS]

lemma platformIds_controlOf_sum : (platformIds.map controlOf).sum = 100 := by
  simp only [platformIds, ALL_PLATFORMS, List.map_cons, List.map_nil, controlOf,
    getPlatformById_spotify, getPlatformById_label, getPlatformById_distributor,
    getPlatformById_radio, getPlatformById_venues, getPlatformById_media,
    List.sum_cons, List.sum_nil]
  norm_num

lemma controlInv_bound {s : GameState} (h : ControlInv s) :
    0 ≤ s.industryControl ∧ s.industryControl ≤ 100 := by
  obtain ⟨hnd, hsub, hsum⟩ := h
  constructor
  · rw [hsum]
    apply List.sum_nonneg
    intro x hx
    obtain ⟨id, _, rfl⟩ := List.mem_map.1 hx
    exact controlOf_nonneg id
  · rw [hsum, ← platformIds_controlOf_sum]
    have hsp : List.Subperm s.ownedPlatforms platformIds := hnd.subperm hsub
    obtain ⟨l, hperm, hsl⟩ := hsp
    have h1 : (s.ownedPlatforms.map controlOf).sum = (l.map controlOf).sum :=
      ((hperm.map controlOf).sum_eq).symm
    rw [h1]
    exact List.Sublist.sum_le_sum (hsl.map controlOf)
      (fun x hx => by
        obtain ⟨id, _, rfl⟩ := List.mem_map.1 hx
        exact controlOf_nonneg id)

lemma controlInv_of_same {s t : GameState} (h : ControlInv s)
    (hc : t.industryControl = s.industryControl) (ho : t.ownedPlatforms = s.ownedPlatforms) :
    ControlInv t := by
  rw [ControlInv, hc, ho]
  exact h

lemma purchasePlatform_controlInv (s : GameState) (id : String) (h : ControlInv s) :
    ControlInv ((purchasePlatform s id).2) := by
  unfold purchasePlatform
  split
  · exact h
  · rename_i hcan
    split
    · exact h
    · rename_i p hp
      rw [Bool.not_eq_true', Bool.not_eq_false] at hcan
      have hnotowned : id ∉ s.ownedPlatforms := by
        intro hmem
        unfold canPurchasePlatform at hcan
        rw [hp] at hcan
        simp [hmem] at hcan
      have hidmem : id ∈ platformIds := by
        have hmem : p ∈ ALL_PLATFORMS := List.mem_of_find?_eq_some hp
        have hid : p.id = id := by
          have := List.find?_some hp
          simpa using this
        exact hid ▸ List.mem_map_of_mem PlatformDef.id hmem
      have hcof : controlOf id = p.controlContribution := by
        unfold controlOf
        rw [hp]
      obtain ⟨hnd, hsub, hsum⟩ := h
      refine ⟨?_, ?_, ?_⟩
      · simpa [List.nodup_append] using ⟨hnd, fun hmem => hnotowned hmem⟩
      · intro x hx
        rcases List.mem_append.1 hx with hx | hx
        · exact hsub x hx
        · rcases List.mem_singleton.1 hx with rfl
          exact hidmem
      · simp only [List.map_append, List.map_cons, List.map_nil, List.sum_append,
          List.sum_cons, List.sum_nil, hcof]
        rw [hsum]
        ring

lemma op_apply_controlInv (op : Op) (s : GameState) (h : ControlInv s) :
    ControlInv (op.apply s) := by
  cases op with
  | opTick nowPerf nowDate lastTick =>
    exact controlInv_of_same h (tick_frame nowPerf nowDate lastTick s).2.1
      (tick_frame nowPerf nowDate lastTick s).2.2
  | opProcessSongs dt =>
    exact controlInv_of_same h (processSongQueue_frame s dt).2.1 (processSongQueue_frame s dt).2.2
  | opIncome now dt => exact controlInv_of_same h rfl rfl
  | opFans now dt =>
    exact controlInv_of_same h (generateFans_frame now s dt).2.1 (generateFans_frame now s dt).2.2
  | opLegacyIncome dt =>
    exact controlInv_of_same h (applyLegacyIncome_frame s dt).2.1 (applyLegacyIncome_frame s dt).2.2
  | opAlbumSales demand fanMult dt =>
    exact controlInv_of_same h (processAlbumSales_frame demand fanMult s dt).2.1
      (processAlbumSales_frame demand fanMult s dt).2.2
  | opProcessTour now =>
    exact controlInv_of_same h (processTour_frame now s).2.1 (processTour_frame now s).2.2
  | opFilterBoosts now => exact controlInv_of_same h rfl rfl
  | opQueueSongs count =>
    exact controlInv_of_same h (queueSongs_frame s count).2.1 (queueSongs_frame s count).2.2
  | opPurchaseTech upgradeId =>
    exact controlInv_of_same h (purchaseTechUpgrade_frame s upgradeId).2.1
      (purchaseTechUpgrade_frame s upgradeId).2.2
  | opPurchasePlatform platformId => exact purchasePlatform_controlInv s platformId h
  | opPressAlbum now albumId albumName copies price =>
    exact controlInv_of_same h (pressAlbum_frame now albumId albumName s copies price).2.1
      (pressAlbum_frame now albumId albumName s copies price).2.2
  | opStartTour now tourId tourName tier =>
    exact controlInv_of_same h (startTour_frame now tourId tourName s tier).2.1
      (startTour_frame now tourId tourName s tier).2.2
  | opActivateBoost now abilityId abilityName mult dur btype =>
    exact controlInv_of_same h rfl rfl
  | opPrestige newName now =>
    exact controlInv_of_same h (performPrestige_frame_all newName now s).1
      (performPrestige_frame_all newName now s).2.2.2.1

lemma reachable_controlInv {s : GameState} (h : Reachable s) : ControlInv s := by
  induction h with
  | init now => exact ⟨List.nodup_nil, by simp [createInitialGameState], rfl⟩
  | step op _ ih => exact op_apply_controlInv op _ ih

lemma purchasePlatform_control_mono (s : GameState) (id : String) :
    s.industryControl ≤ ((purchasePlatform s id).2).industryControl := by
  unfold purchasePlatform
  split
  · exact le_refl _
  · split
    · exact le_refl _
    · rename_i p hp
      have hmem : p ∈ ALL_PLATFORMS := List.mem_of_find?_eq_some hp
      have hpos : (0 : ℚ) ≤ p.controlContribution :=
        le_of_lt (all_platforms_control_pos p hmem)
      simp only
      linarith

lemma op_apply_control_mono (s : GameState) (op : Op) :
    s.industryControl ≤ (op.apply s).industryControl := by
  cases op with
  | opTick nowPerf nowDate lastTick =>
    exact le_of_eq (tick_frame nowPerf nowDate lastTick s).2.1.symm
  | opProcessSongs dt => exact le_of_eq (processSongQueue_frame s dt).2.1.symm
  | opIncome now dt => exact le_refl _
  | opFans now dt => exact le_of_eq (generateFans_frame now s dt).2.1.symm
  | opLegacyIncome dt => exact le_of_eq (applyLegacyIncome_frame s dt).2.1.symm
  | opAlbumSales demand fanMult dt =>
    exact le_of_eq (processAlbumSales_frame demand fanMult s dt).2.1.symm
  | opProcessTour now => exact le_of_eq (processTour_frame now s).2.1.symm
  | opFilterBoosts now => exact le_refl _
  | opQueueSongs count => exact le_of_eq (queueSongs_frame s count).2.1.symm
  | opPurchaseTech upgradeId => exact le_of_eq (purchaseTechUpgrade_frame s upgradeId).2.1.symm
  | opPurchasePlatform platformId => exact purchasePlatform_control_mono s platformId
  | opPressAlbum now albumId albumName copies price =>
    exact le_of_eq (pressAlbum_frame now albumId albumName s copies price).2.1.symm
  | opStartTour now tourId tourName tier =>
    exact le_of_eq (startTour_frame now tourId tourName s tier).2.1.symm
  | opActivateBoost now abilityId abilityName mult dur btype => exact le_refl _
  | opPrestige newName now => exact le_of_eq (performPrestige_frame_all newName now s).1.symm

lemma op_apply_control_frame (s : GameState) (op : Op) :
    (∃ id, op = Op.opPurchasePlatform id) ∨ (op.apply s).industryControl = s.industryControl := by
  cases op with
  | opTick nowPerf nowDate lastTick => exact Or.inr (tick_frame nowPerf nowDate lastTick s).2.1
  | opProcessSongs dt => exact Or.inr (processSongQueue_frame s dt).2.1
  | opIncome now dt => exact Or.inr rfl
  | opFans now dt => exact Or.inr (generateFans_frame now s dt).2.1
  | opLegacyIncome dt => exact Or.inr (applyLegacyIncome_frame s dt).2.1
  | opAlbumSales demand fanMult dt =>
    exact Or.inr (processAlbumSales_frame demand fanMult s dt).2.1
  | opProcessTour now => exact Or.inr (processTour_frame now s).2.1
  | opFilterBoosts now => exact Or.inr rfl
  | opQueueSongs count => exact Or.inr (queueSongs_frame s count).2.1
  | opPurchaseTech upgradeId => exact Or.inr (purchaseTechUpgrade_frame s upgradeId).2.1
  | opPurchasePlatform platformId => exact Or.inl ⟨platformId, rfl⟩
  | opPressAlbum now albumId albumName copies price =>
    exact Or.inr (pressAlbum_frame now albumId albumName s copies price).2.1
  | opStartTour now tourId tourName tier =>
    exact Or.inr (startTour_frame now tourId tourName s tier).2.1
  | opActivateBoost now abilityId abilityName mult dur btype => exact Or.inr rfl
  | opPrestige newName now => exact Or.inr (performPrestige_frame_all newName now s).1

/-- C10: in every state reachable from a fresh game, the owned-platform list
has no duplicates and `industryControl` stays within [0, 100]; every
operation leaves `industryControl` non-decreasing; only the
platform-purchase operation can change it; purchasing an already-owned
platform always fails; every platform's `controlContribution` is
positive; and the six contributions sum to exactly 100. -/
theorem industryControl_invariant :
    (∀ s : GameState, Reachable s →
      s.ownedPlatforms.Nodup ∧ 0 ≤ s.industryControl ∧ s.industryControl ≤ 100) ∧
    (∀ (s : GameState) (op : Op), s.industryControl ≤ (op.apply s).industryControl) ∧
    (∀ (s : GameState) (op : Op),
      (∃ id, op = Op.opPurchasePlatform id) ∨ (op.apply s).industryControl = s.industryControl) ∧
    (∀ (s : GameState) (id : String), id ∈ s.ownedPlatforms →
      (purchasePlatform s id).1 = false) ∧
    (ALL_PLATFORMS.map PlatformDef.controlContribution).sum = 100 ∧
    (∀ p ∈ ALL_PLATFORMS, 0 < p.controlContribution) := by
  refine ⟨?_, op_apply_control_mono, op_apply_control_frame, ?_, ?_, all_platforms_control_pos⟩
  · intro s hs
    have hinv := reachable_controlInv hs
    exact ⟨hinv.1, controlInv_bound hinv⟩
  · intro s id hmem
    unfold purchasePlatform
    split
    · rfl
    · rename_i hcan
      rw [Bool.not_eq_true', Bool.not_eq_false] at hcan
      unfold canPurchasePlatform at hcan
      cases hp : getPlatformById id with
      | none => rw [hp] at hcan
      | some p =>
        rw [hp] at hcan
        simp [hmem] at hcan
  · norm_num [ALL_PLATFORMS]

/-- C10 witness: the bound clause evaluated at the initial state (which is
reachable by construction), and the at-most-once clause evaluated at a
state that already owns the platform being repurchased. -/
theorem industryControl_invariant_witness :
    ((createInitialGameState 0).ownedPlatforms.Nodup ∧
      0 ≤ (createInitialGameState 0).industryControl ∧
      (createInitialGameState 0).industryControl ≤ 100) ∧
    (purchasePlatform twoPlatformState "platform_spotify").1 = false := by
  constructor
  · exact industryControl_invariant.1 (createInitialGameState 0) (Reachable.init 0)
  · exact industryControl_invariant.2.2.2.1 twoPlatformState "platform_spotify"
      (by simp [twoPlatformState, createInitialGameState])

end MusicSim
